import Mathlib

/-!
Shallow embedding of soliloque-server's channel module (channel.c) :
the channel data model, the hierarchy operations (`channel_add_subchannel`,
`channel_remove_subchannel`, `ch_getflags`, `ch_isfull`), membership
(`add_player_to_channel`), the privilege resolver
(`get_player_channel_privilege`) and the wire codec (`channel_to_data`,
`channel_to_data_size`, `channel_from_data`).

Pointers between channels are embedded as an arena : a store is a list of
channel records and a parent / subchannel pointer is the id of the channel
it points to.  C strings are lists of bytes; `strlen` / `strcpy` /
`strndup` stop at the first 0 byte exactly as in C.  Machine integers are
`Nat` (sizes : `size_t` is 64 bits, `(size_t) -1 = 2^64 - 1`; `int` is
32 bits, so the C complement `~x` is `not32`).  Allocation failure is not
modelled (every `calloc`/`strdup` succeeds).
-/

namespace Soliloque

/-- Modelled from the spec (channel.h is not part of the sources) : the
channel flag bits `DEFAULT`, `PASSWORD`, `SUBCHANNELS`, `UNREGISTERED` of
the flags bitset, as distinct bits. -/
def CHANNEL_FLAG_UNREGISTERED : Nat := 1

/-- Modelled from the spec : the `PASSWORD` flag bit. -/
def CHANNEL_FLAG_PASSWORD : Nat := 4

/-- Modelled from the spec : the `SUBCHANNELS` flag bit. -/
def CHANNEL_FLAG_SUBCHANNELS : Nat := 8

/-- Modelled from the spec : the `DEFAULT` flag bit. -/
def CHANNEL_FLAG_DEFAULT : Nat := 16

/-- Modelled from the spec (player.h is not part of the sources) : the
global flag marking a registered player identity. -/
def GLOBAL_FLAG_REGISTERED : Nat := 1

/-- Modelled from the spec : tag value of the privilege union for a
registered-account identity. -/
def PL_CH_PRIV_REGISTERED : Nat := 1

/-- Modelled from the spec : tag value of the privilege union for a
transient unregistered player identity. -/
def PL_CH_PRIV_UNREGISTERED : Nat := 2

/-- `(size_t) -1` on a 64-bit platform, as used by `ch_isfull` for the
default channel. -/
def SIZE_T_MAX : Nat := 2 ^ 64 - 1

/-- A player-channel privilege record (struct player_channel_privilege).
`reg` is the union tag; `pl_or_reg_reg` / `pl_or_reg_pl` are the two arms
of the `pl_or_reg` union (a registration handle id, resp. a player id);
`ch` is the owning channel's id; `level` the privilege level.  The struct
itself is declared outside the sources; fields are the ones the code under
`src/` reads and writes, modelled from the spec's tagged-union description. -/
structure player_channel_privilege where
  reg : Nat
  pl_or_reg_reg : Nat
  pl_or_reg_pl : Nat
  ch : Nat
  level : Nat
  deriving Repr, DecidableEq

/-- A player (struct player), restricted to the fields channel.c uses :
`id` embeds the pointer identity, `reg` the registration handle pointer
(0 = NULL), `global_flags` the global flag bitset, `in_chan` the
current-channel back-reference. -/
structure player where
  id : Nat
  reg : Nat
  global_flags : Nat
  in_chan : Option Nat
  deriving Repr, DecidableEq

/-- A channel (struct channel).  `players` embeds the membership array's
contents (player ids, `used_slots` = its length) and `max_slots` the
array's `max_slots` counter (set from `max_users` by `new_channel`).
`parent` is the parent pointer (as an arena id), `parent_id` the raw
`parent_id` field filled by `channel_from_data`, `subchannels` the
subchannel pointer array (arena ids), `pl_privileges` the privilege array,
`password` the 30-byte password buffer. -/
structure channel where
  id : Nat
  name : List Nat
  topic : List Nat
  desc : List Nat
  flags : Nat
  codec : Nat
  sort_order : Nat
  password : List Nat
  max_slots : Nat
  players : List Nat
  parent : Option Nat
  parent_id : Nat
  subchannels : List Nat
  pl_privileges : List player_channel_privilege
  deriving Repr, DecidableEq

/-- An arena of channels : the heap of live channel structs, addressed by
channel id (pointer = id of the pointee). -/
abbrev Store := List channel

/-- Dereference a channel pointer : the first channel in the store with
the given id. -/
def findCh (st : Store) (i : Nat) : Option channel :=
  st.find? (fun c => c.id == i)

/-- In-place mutation of the channel with id `i` (every struct with that
id, which is unique in a well-formed store). -/
def updateCh (st : Store) (i : Nat) (f : channel → channel) : Store :=
  st.map (fun c => if c.id == i then f c else c)

/-- Modelled from the spec (array.c is not part of the sources) :
`ar_insert` appends an element to the container, in insertion order. -/
def ar_insert (l : List Nat) (x : Nat) : List Nat := l ++ [x]

/-- Modelled from the spec : `ar_remove` removes an element from the
container, a no-op if absent. -/
def ar_remove (l : List Nat) (x : Nat) : List Nat := l.filter (fun y => y ≠ x)

/-- 32-bit C complement `~x` (of `int` width), correct for `x < 2^32`. -/
def not32 (x : Nat) : Nat := x ^^^ (2 ^ 32 - 1)

/-- C `strlen` : number of bytes before the first NUL. -/
def cstrlen (s : List Nat) : Nat := (s.takeWhile (fun b => b ≠ 0)).length

/-- The bytes `strcpy` copies (up to, excluding, the first NUL). -/
def cstr (s : List Nat) : List Nat := s.takeWhile (fun b => b ≠ 0)

/-- C `strndup s n` : duplicate of at most `n` bytes of `s`, stopping at
the first NUL.  The result is NUL-free. -/
def strndup (s : List Nat) (n : Nat) : List Nat :=
  (s.take n).takeWhile (fun b => b ≠ 0)

/-- Conversion of a C `int` expression to `size_t` (the implicit
conversion at the `strndup` call sites) : reduce mod `2^64`, so a negative
argument becomes a huge length. -/
def toSizeT (i : Int) : Nat := (i % ((2 : Int) ^ 64)).toNat

/-- `new_channel` (channel.c:76-116) : fresh calloc'd channel, password
zeroed, empty player/subchannel/privilege arrays, `max_slots` of the
player array set from `max_users`, strings duplicated, `flags`, `codec`,
`sort_order` stored.  `id` and `parent_id` stay 0 from calloc; `parent`
stays NULL.  Allocation failure is not modelled. -/
def new_channel (name topic desc : List Nat) (flags codec sort_order max_users : Nat) :
    channel :=
  { id := 0
    name := name
    topic := topic
    desc := desc
    flags := flags
    codec := codec
    sort_order := sort_order
    password := List.replicate 30 0
    max_slots := max_users
    players := []
    parent := none
    parent_id := 0
    subchannels := []
    pl_privileges := [] }

/-- `ch_getflags` (channel.c:301-315) : a top channel's own flags, or for
a subchannel the parent's flags with `CHANNEL_FLAG_SUBCHANNELS` and
`CHANNEL_FLAG_DEFAULT` cleared (`flags &= ~...` at `int` width).  A
dangling parent pointer (impossible in a live heap) is given flags 0. -/
def ch_getflags (st : Store) (ch : channel) : Nat :=
  match ch.parent with
  | none => ch.flags
  | some pid =>
    match findCh st pid with
    | none => 0
    | some p => p.flags &&& not32 CHANNEL_FLAG_SUBCHANNELS &&& not32 CHANNEL_FLAG_DEFAULT

/-- `ch_isfull` (channel.c:347-355) : for the default channel, compare
`used_slots` with `(size_t) -1`; otherwise `used_slots >= max_slots`. -/
def ch_isfull (ch : channel) : Bool :=
  if ch.flags &&& CHANNEL_FLAG_DEFAULT ≠ 0 then
    decide (ch.players.length = SIZE_T_MAX)
  else
    decide (ch.players.length ≥ ch.max_slots)

/-- `add_player_to_channel` (channel.c:159-169) : refuse (0) when the
channel is full, else insert the player into the membership array, set the
player's back-reference and return 1.  (`ar_insert` failure is an
allocation failure, not modelled.) -/
def add_player_to_channel (chan : channel) (pl : player) :
    channel × player × Nat :=
  if ch_isfull chan then (chan, pl, 0)
  else ({ chan with players := ar_insert chan.players pl.id },
        { pl with in_chan := some chan.id }, 1)

/-- `channel_remove_subchannel` (channel.c:264-278) : refuse (0) when the
passed parent is not the subchannel's parent or is NULL; else remove the
subchannel from the parent's array and clear the subchannel's parent.
`chId` is the (possibly NULL) parent pointer argument. -/
def channel_remove_subchannel (st : Store) (chId : Option Nat) (subId : Nat) :
    Store × Nat :=
  match findCh st subId with
  | none => (st, 0)
  | some sub =>
    if chId ≠ sub.parent then (st, 0)
    else
      match chId with
      | none => (st, 0)
      | some cid =>
        (updateCh (updateCh st cid
            (fun c => { c with subchannels := ar_remove c.subchannels subId }))
          subId (fun c => { c with parent := none }), 1)

/-- `channel_add_subchannel` (channel.c:280-291) : refuse (0) when the
parent's effective flags lack `CHANNEL_FLAG_SUBCHANNELS`; else detach the
child from its current parent if it has one, set the child's parent and
insert the child into the parent's subchannel array.  A dangling argument
pointer (impossible in a live heap) refuses. -/
def channel_add_subchannel (st : Store) (chId subId : Nat) : Store × Nat :=
  match findCh st chId, findCh st subId with
  | some ch, some sub =>
    if ch_getflags st ch &&& CHANNEL_FLAG_SUBCHANNELS = 0 then (st, 0)
    else
      let st1 := match sub.parent with
        | some pid => (channel_remove_subchannel st (some pid) subId).1
        | none => st
      let st2 := updateCh st1 subId (fun c => { c with parent := some chId })
      let st3 := updateCh st2 chId
        (fun c => { c with subchannels := ar_insert c.subchannels subId })
      (st3, 1)
  | _, _ => (st, 0)

/-- Does a privilege record match the player, in the order the loop of
`get_player_channel_privilege` tests (channel.c:375-380) : registered tag
with equal registration handle, or unregistered tag with equal player
pointer. -/
def privMatches (pl : player) (pr : player_channel_privilege) : Bool :=
  (pr.reg == PL_CH_PRIV_REGISTERED && pr.pl_or_reg_reg == pl.reg) ||
  (pr.reg == PL_CH_PRIV_UNREGISTERED && pr.pl_or_reg_pl == pl.id)

/-- The top-level owner `tmp_ch` of channel.c:371-373 : the parent if
there is one, else the channel itself. -/
def ownerOf (ch : channel) (chId : Nat) : Nat :=
  match ch.parent with
  | some p => p
  | none => chId

/-- `add_player_channel_privilege` (channel.c:403-406). -/
def add_player_channel_privilege (st : Store) (chId : Nat)
    (pr : player_channel_privilege) : Store :=
  updateCh st chId (fun c => { c with pl_privileges := c.pl_privileges ++ [pr] })

/-- The privilege record built by channel.c:384-397 when no existing one
matches : fields zeroed by `new_player_channel_privilege` (modelled from
the spec, the constructor is outside the sources), the tag and identity
arm chosen by the player's global registration flag, `ch` pointing at the
owner. -/
def mkNewPriv (pl : player) (ownerId : Nat) : player_channel_privilege :=
  if pl.global_flags &&& GLOBAL_FLAG_REGISTERED ≠ 0 then
    { reg := PL_CH_PRIV_REGISTERED, pl_or_reg_reg := pl.reg,
      pl_or_reg_pl := 0, ch := ownerId, level := 0 }
  else
    { reg := PL_CH_PRIV_UNREGISTERED, pl_or_reg_reg := 0,
      pl_or_reg_pl := pl.id, ch := ownerId, level := 0 }

/-- `get_player_channel_privilege` (channel.c:365-401) : resolve to the
top-level owner, scan its privilege array for the first record matching
the player, and return it; when none matches, create a fresh record
(fields zeroed by `new_player_channel_privilege`, modelled from the spec)
tagged by the player's global registration flag, insert it into the
owner's array and return it.  (The database hook is an external side
effect with no in-memory state.)  `none` models the dereference of a
dangling pointer, impossible in a live heap. -/
def get_player_channel_privilege (st : Store) (pl : player) (chId : Nat) :
    Option (Store × player_channel_privilege) :=
  match findCh st chId with
  | none => none
  | some ch =>
    match findCh st (ownerOf ch chId) with
    | none => none
    | some owner =>
      match owner.pl_privileges.find? (privMatches pl) with
      | some pr => some (st, pr)
      | none =>
        some (add_player_channel_privilege st (ownerOf ch chId)
                (mkNewPriv pl (ownerOf ch chId)),
              mkNewPriv pl (ownerOf ch chId))

/-- Repeated calls of `get_player_channel_privilege` for the same
(player, channel) pair, threading the store (a failing call leaves the
store as is). -/
def get_priv_iter (pl : player) (chId : Nat) : Nat → Store → Store
  | 0, st => st
  | k + 1, st =>
    match get_player_channel_privilege st pl chId with
    | some (st1, _) => get_priv_iter pl chId k st1
    | none => st

/-- Modelled from the spec : the 2-byte big-endian write helper `wu16`
(defined outside the sources), truncating to 16 bits. -/
def wu16 (x : Nat) : List Nat := [x / 256 % 256, x % 256]

/-- Modelled from the spec : the 4-byte big-endian write helper `wu32`,
truncating to 32 bits. -/
def wu32 (x : Nat) : List Nat :=
  [x / 2 ^ 24 % 256, x / 2 ^ 16 % 256, x / 256 % 256, x % 256]

/-- Byte at offset `i` of a buffer (a read past the end of the modelled
buffer, undefined behaviour in C, reads 0). -/
def byteAt (l : List Nat) (i : Nat) : Nat := l.getD i 0

/-- Modelled from the spec : the big-endian read helper `ru16`, reading
the 2 bytes at the head of the remaining buffer. -/
def ru16 (l : List Nat) : Nat := 256 * byteAt l 0 + byteAt l 1

/-- Modelled from the spec : the big-endian read helper `ru32`. -/
def ru32 (l : List Nat) : Nat :=
  2 ^ 24 * byteAt l 0 + 2 ^ 16 * byteAt l 1 + 256 * byteAt l 2 + byteAt l 3

/-- `channel_to_data` (channel.c:180-207), the produced byte block :
id, flags, codec, parent id (0xFFFFFFFF when no parent), sort order, the
player array's `max_slots`, then the three strings each followed by their
NUL terminator. -/
def channel_to_data (ch : channel) : List Nat :=
  wu32 ch.id ++ wu16 ch.flags ++ wu16 ch.codec ++
  wu32 (match ch.parent with
        | none => 4294967295
        | some pid => pid) ++
  wu16 ch.sort_order ++ wu16 ch.max_slots ++
  cstr ch.name ++ [0] ++ cstr ch.topic ++ [0] ++ cstr ch.desc ++ [0]

/-- `channel_to_data_size` (channel.c:217-223). -/
def channel_to_data_size (ch : channel) : Nat :=
  4 + 2 + 2 + 4 + 2 + 2 + cstrlen ch.name + 1 + cstrlen ch.topic + 1 +
    cstrlen ch.desc + 1

/-- `channel_from_data` (channel.c:226-262) : skip the 4 id bytes, read
flags, codec, parent id, sort order, max users, then `strndup` the three
strings with the `len - (ptr - data) - X` bounds (converted to `size_t`,
so a negative bound becomes huge), build the channel with `new_channel`,
record the raw `parent_id` when it is not 0xFFFFFFFF, and return the
channel together with the number of bytes consumed.  Allocation failure
(the only failure path, `return 0` with `*dst` unset) is not modelled. -/
def channel_from_data (data : List Nat) (len : Int) : channel × Nat :=
  let flags := ru16 (data.drop 4)
  let codec := ru16 (data.drop 6)
  let parent_id := ru32 (data.drop 8)
  let sort_order := ru16 (data.drop 12)
  let max_users := ru16 (data.drop 14)
  let name := strndup (data.drop 16) (toSizeT (len - 16 - 3))
  let p1 := 16 + name.length + 1
  let topic := strndup (data.drop p1) (toSizeT (len - (p1 : Int) - 2))
  let p2 := p1 + topic.length + 1
  let desc := strndup (data.drop p2) (toSizeT (len - (p2 : Int) - 1))
  let p3 := p2 + desc.length + 1
  let ch := new_channel name topic desc flags codec sort_order max_users
  (if parent_id ≠ 4294967295 then { ch with parent_id := parent_id } else ch, p3)

/-! ## Helper lemmas -/

theorem testBit_not32 (b i : Nat) :
    (not32 b).testBit i = (b.testBit i != decide (i < 32)) := by
  unfold not32
  rw [Nat.testBit_xor, Nat.testBit_two_pow_sub_one]

theorem testBit_eight (i : Nat) : (8 : Nat).testBit i = decide (i = 3) := by
  have h : (8 : Nat) = 2 ^ 3 := by norm_num
  rw [h, Nat.testBit_two_pow]
  simp [eq_comm]

theorem testBit_sixteen (i : Nat) : (16 : Nat).testBit i = decide (i = 4) := by
  have h : (16 : Nat) = 2 ^ 4 := by norm_num
  rw [h, Nat.testBit_two_pow]
  simp [eq_comm]

/-- The mask chain of `ch_getflags` really clears the `SUBCHANNELS` bit. -/
theorem masked_land_subchannels (f : Nat) :
    (f &&& not32 CHANNEL_FLAG_SUBCHANNELS &&& not32 CHANNEL_FLAG_DEFAULT) &&&
      CHANNEL_FLAG_SUBCHANNELS = 0 := by
  apply Nat.eq_of_testBit_eq
  intro i
  rcases eq_or_ne i 3 with h | h
  · subst h
    simp [Nat.testBit_land, testBit_not32, testBit_eight, CHANNEL_FLAG_SUBCHANNELS]
  · simp [Nat.testBit_land, testBit_eight, CHANNEL_FLAG_SUBCHANNELS, h]

/-- For any channel whose parent pointer is set, `ch_getflags` yields a
value with the `SUBCHANNELS` bit clear. -/
theorem ch_getflags_parent_no_subchannels (st : Store) (ch : channel) (pid : Nat)
    (h : ch.parent = some pid) :
    ch_getflags st ch &&& CHANNEL_FLAG_SUBCHANNELS = 0 := by
  have hrw : ch_getflags st ch =
      match findCh st pid with
      | none => 0
      | some p =>
        p.flags &&& not32 CHANNEL_FLAG_SUBCHANNELS &&& not32 CHANNEL_FLAG_DEFAULT := by
    unfold ch_getflags
    rw [h]
  rw [hrw]
  cases hf : findCh st pid with
  | none => simp
  | some p => simpa using masked_land_subchannels p.flags

/-- Dereferencing after an in-place mutation : the channel found under
`j` is the old one, mutated when its id is `i` (for an id-preserving
mutation). -/
theorem findCh_updateCh (st : Store) (i j : Nat) (f : channel → channel)
    (hf : ∀ c, (f c).id = c.id) :
    findCh (updateCh st i f) j =
      (findCh st j).map (fun c => if c.id == i then f c else c) := by
  unfold findCh updateCh
  rw [List.find?_map]
  have hp : ((fun c => c.id == j) ∘ fun c => if (c.id == i) = true then f c else c) =
      fun c : channel => c.id == j := by
    funext c
    by_cases h : c.id == i <;> simp [Function.comp, h, hf c]
  rw [hp]

/-- The channel a pointer dereferences to carries that id. -/
theorem findCh_some_id {st : Store} {i : Nat} {c : channel}
    (h : findCh st i = some c) : c.id = i := by
  unfold findCh at h
  simpa using List.find?_some h

/-- Shared helper : `channel_add_subchannel` refuses and leaves the store
unchanged whenever the parent argument itself has a parent. -/
theorem add_subchannel_fails_of_parent (st : Store) (chId subId : Nat)
    (ch : channel) (gp : Nat)
    (hch : findCh st chId = some ch)
    (hparent : ch.parent = some gp) :
    channel_add_subchannel st chId subId = (st, 0) := by
  unfold channel_add_subchannel
  rw [hch]
  cases hsub : findCh st subId with
  | none => rfl
  | some sub =>
    simp [ch_getflags_parent_no_subchannels st ch gp hparent]

/-! ## C2 : size contract of the encoder -/

/-- C2 : for every channel, `channel_to_data_size` equals the number of
bytes written by `channel_to_data`, namely 16 fixed bytes plus
(strlen name + 1) + (strlen topic + 1) + (strlen desc + 1). -/
theorem channel_to_data_length_eq_size (ch : channel) :
    (channel_to_data ch).length = channel_to_data_size ch ∧
    channel_to_data_size ch =
      16 + (cstrlen ch.name + 1) + (cstrlen ch.topic + 1) + (cstrlen ch.desc + 1) := by
  constructor
  · cases hp : ch.parent <;>
      simp [channel_to_data, channel_to_data_size, wu32, wu16, cstr, cstrlen, hp] <;>
      omega
  · simp [channel_to_data_size]
    omega

/-! ## C4 : the default channel and `ch_isfull` -/

/-- Counterexample to C4 as stated : a `DEFAULT`-flagged channel whose
membership count is the `(size_t) -1` sentinel. -/
def chSentinel : channel :=
  { id := 1, name := [], topic := [], desc := [], flags := CHANNEL_FLAG_DEFAULT,
    codec := 0, sort_order := 0, password := List.replicate 30 0, max_slots := 16,
    players := List.replicate SIZE_T_MAX 0, parent := none, parent_id := 0,
    subchannels := [], pl_privileges := [] }

/-- C4 counterexample : at `used_slots = 2^64 - 1` the default channel is
reported full, so `ch_isfull` is not false for all values of
`used_slots`. -/
theorem ch_isfull_default_sentinel_true : ch_isfull chSentinel = true := by
  simp [ch_isfull, chSentinel, CHANNEL_FLAG_DEFAULT]

/-- C4 (amended) : for every channel flagged `DEFAULT` whose membership
count is not the `(size_t) -1` sentinel, `ch_isfull` returns false,
whatever the membership count and `max_slots`. -/
theorem ch_isfull_default_false (ch : channel)
    (hdef : ch.flags &&& CHANNEL_FLAG_DEFAULT ≠ 0)
    (hn : ch.players.length ≠ SIZE_T_MAX) :
    ch_isfull ch = false := by
  simp [ch_isfull, hdef, hn]

/-- Concrete default channel with 1000 members, far beyond its
`max_slots` of 16. -/
def chDefaultBusy : channel :=
  { id := 2, name := [], topic := [], desc := [], flags := CHANNEL_FLAG_DEFAULT,
    codec := 0, sort_order := 0, password := List.replicate 30 0, max_slots := 16,
    players := List.replicate 1000 7, parent := none, parent_id := 0,
    subchannels := [], pl_privileges := [] }

/-- Witness for C4 (amended) : the default channel with 1000 players is
not full. -/
theorem ch_isfull_default_false_witness : ch_isfull chDefaultBusy = false :=
  ch_isfull_default_false chDefaultBusy (by decide)
    (by simp only [chDefaultBusy, List.length_replicate, SIZE_T_MAX]; norm_num)

/-! ## C6 : capacity of a non-default channel -/

/-- C6 : a non-default channel at capacity (`used_slots = max_slots = N`)
rejects the next `add_player_to_channel` with the capacity signal 0, and
both the channel (hence its membership count) and the player are left
unchanged. -/
theorem add_player_to_channel_full (chan : channel) (pl : player)
    (hdef : chan.flags &&& CHANNEL_FLAG_DEFAULT = 0)
    (hfull : chan.players.length = chan.max_slots) :
    add_player_to_channel chan pl = (chan, pl, 0) ∧
    (add_player_to_channel chan pl).1.players.length = chan.max_slots := by
  have hf : ch_isfull chan = true := by
    simp [ch_isfull, hdef, hfull]
  refine ⟨by simp [add_player_to_channel, hf], ?_⟩
  simp [add_player_to_channel, hf, hfull]

/-- Concrete non-default channel at capacity 2. -/
def chAtCapacity : channel :=
  { id := 3, name := [65], topic := [], desc := [], flags := CHANNEL_FLAG_SUBCHANNELS,
    codec := 0, sort_order := 0, password := List.replicate 30 0, max_slots := 2,
    players := [10, 11], parent := none, parent_id := 0,
    subchannels := [], pl_privileges := [] }

/-- Concrete player used by the C6 witness. -/
def plWaiting : player := { id := 42, reg := 0, global_flags := 0, in_chan := none }

/-- Witness for C6 at a concrete channel and player. -/
theorem add_player_to_channel_full_witness :
    add_player_to_channel chAtCapacity plWaiting = (chAtCapacity, plWaiting, 0) :=
  (add_player_to_channel_full chAtCapacity plWaiting (by decide) (by decide)).1

/-! ## C10 : a channel with a parent can never acquire subchannels -/

/-- C10 : when the parent argument of `channel_add_subchannel` itself has
a parent, the call always fails with 0 and leaves the store unchanged,
because `ch_getflags` clears `SUBCHANNELS` for any channel with a parent. -/
theorem channel_add_subchannel_grandparent_fails (st : Store) (chId subId : Nat)
    (ch : channel) (gp : Nat)
    (hch : findCh st chId = some ch)
    (hparent : ch.parent = some gp) :
    channel_add_subchannel st chId subId = (st, 0) :=
  add_subchannel_fails_of_parent st chId subId ch gp hch hparent

/-- Concrete store : grandparent 1 ← parent 2 (a subchannel) and a lone
channel 3 we try to attach under 2. -/
def stGrand : Store :=
  [ { id := 1, name := [65], topic := [], desc := [], flags := CHANNEL_FLAG_SUBCHANNELS,
      codec := 0, sort_order := 0, password := List.replicate 30 0, max_slots := 8,
      players := [], parent := none, parent_id := 0, subchannels := [2],
      pl_privileges := [] },
    { id := 2, name := [66], topic := [], desc := [], flags := CHANNEL_FLAG_SUBCHANNELS,
      codec := 0, sort_order := 0, password := List.replicate 30 0, max_slots := 8,
      players := [], parent := some 1, parent_id := 0, subchannels := [],
      pl_privileges := [] },
    { id := 3, name := [67], topic := [], desc := [], flags := 0,
      codec := 0, sort_order := 0, password := List.replicate 30 0, max_slots := 8,
      players := [], parent := none, parent_id := 0, subchannels := [],
      pl_privileges := [] } ]

/-- Witness for C10 : attaching channel 3 under the subchannel 2 fails
and changes nothing. -/
theorem channel_add_subchannel_grandparent_fails_witness :
    channel_add_subchannel stGrand 2 3 = (stGrand, 0) :=
  channel_add_subchannel_grandparent_fails stGrand 2 3
    { id := 2, name := [66], topic := [], desc := [], flags := CHANNEL_FLAG_SUBCHANNELS,
      codec := 0, sort_order := 0, password := List.replicate 30 0, max_slots := 8,
      players := [], parent := some 1, parent_id := 0, subchannels := [],
      pl_privileges := [] }
    1 (by decide) rfl

/-! ## C3 : the depth invariant of `channel_add_subchannel` -/

/-- Top channel 1, able to hold subchannels. -/
def chTopA : channel :=
  { id := 1, name := [65], topic := [], desc := [], flags := CHANNEL_FLAG_SUBCHANNELS,
    codec := 0, sort_order := 0, password := List.replicate 30 0, max_slots := 8,
    players := [], parent := none, parent_id := 0, subchannels := [],
    pl_privileges := [] }

/-- Top channel 2, already the parent of channel 3. -/
def chMidB : channel :=
  { id := 2, name := [66], topic := [], desc := [], flags := CHANNEL_FLAG_SUBCHANNELS,
    codec := 0, sort_order := 0, password := List.replicate 30 0, max_slots := 8,
    players := [], parent := none, parent_id := 0, subchannels := [3],
    pl_privileges := [] }

/-- Channel 3, the subchannel of channel 2. -/
def chLeafC : channel :=
  { id := 3, name := [67], topic := [], desc := [], flags := 0,
    codec := 0, sort_order := 0, password := List.replicate 30 0, max_slots := 8,
    players := [], parent := some 2, parent_id := 0, subchannels := [],
    pl_privileges := [] }

/-- Store for the C3 counterexample : 1 and 2 top-level, 3 under 2. -/
def stDeep : Store := [chTopA, chMidB, chLeafC]

/-- C3 counterexample : attaching channel 2 — whose subchannel set `[3]`
is non-empty — under channel 1 succeeds, leaving 2 with both a parent and
a non-empty subchannel set (a depth-3 chain 1 ← 2 ← 3). -/
theorem add_subchannel_depth_violation :
    (channel_add_subchannel stDeep 1 2).2 = 1 ∧
    (findCh (channel_add_subchannel stDeep 1 2).1 2).map channel.parent =
      some (some 1) ∧
    (findCh (channel_add_subchannel stDeep 1 2).1 2).map channel.subchannels =
      some [3] := by
  decide

/-- C3 (amended) : the only depth check `channel_add_subchannel` makes is
on the parent side — a call can only succeed when the parent argument is
top-level (so a channel with a parent never acquires subchannels); the
child's own subchannel set is not inspected, and a channel with non-empty
subchannels can become a child. -/
theorem add_subchannel_success_parent_is_top (st : Store) (chId subId : Nat)
    (hsucc : (channel_add_subchannel st chId subId).2 = 1) :
    ∀ ch, findCh st chId = some ch → ch.parent = none := by
  intro ch hch
  cases hp : ch.parent with
  | none => rfl
  | some gp =>
    rw [add_subchannel_fails_of_parent st chId subId ch gp hch hp] at hsucc
    simp at hsucc

/-- Witness for C3 (amended) : the successful attach of 2 under 1 in
`stDeep` has a top-level parent argument. -/
theorem add_subchannel_success_parent_is_top_witness : chTopA.parent = none :=
  add_subchannel_success_parent_is_top stDeep 1 2 (by decide) chTopA (by decide)

/-! ## C7 : failure and detach-reattach behaviour of
`channel_add_subchannel` -/

/-- C7 : with parent `ch` and child `sub` live in the store, (1) when the
parent's effective flags lack `SUBCHANNELS` the call fails with 0 and the
store — in particular the parent's subchannel set and the child's parent
reference — is unchanged; (2) when they have `SUBCHANNELS` and the child
already has a (distinct, live) parent, the call returns 1, the child is
removed from its old parent's subchannel set, its parent is set to `ch`,
and it is inserted into `ch`'s subchannel set. -/
theorem channel_add_subchannel_spec (st : Store) (chId subId : Nat)
    (ch sub : channel)
    (hch : findCh st chId = some ch) (hsub : findCh st subId = some sub) :
    (ch_getflags st ch &&& CHANNEL_FLAG_SUBCHANNELS = 0 →
      channel_add_subchannel st chId subId = (st, 0)) ∧
    (∀ oldId old, ch_getflags st ch &&& CHANNEL_FLAG_SUBCHANNELS ≠ 0 →
      sub.parent = some oldId → findCh st oldId = some old →
      oldId ≠ chId → oldId ≠ subId → chId ≠ subId →
      (channel_add_subchannel st chId subId).2 = 1 ∧
      findCh (channel_add_subchannel st chId subId).1 subId =
        some { sub with parent := some chId } ∧
      findCh (channel_add_subchannel st chId subId).1 chId =
        some { ch with subchannels := ar_insert ch.subchannels subId } ∧
      findCh (channel_add_subchannel st chId subId).1 oldId =
        some { old with subchannels := ar_remove old.subchannels subId }) ∧
    (ch_getflags st ch &&& CHANNEL_FLAG_SUBCHANNELS ≠ 0 →
      sub.parent = some chId → chId ≠ subId →
      (channel_add_subchannel st chId subId).2 = 1 ∧
      findCh (channel_add_subchannel st chId subId).1 subId =
        some { sub with parent := some chId } ∧
      findCh (channel_add_subchannel st chId subId).1 chId =
        some { ch with
               subchannels := ar_insert (ar_remove ch.subchannels subId) subId }) := by
  refine ⟨?_, ?_, ?_⟩
  · intro hflag
    unfold channel_add_subchannel
    rw [hch, hsub]
    simp [hflag]
  · intro oldId old hflag hpar hold hoc hos hcs
    have hsubid : sub.id = subId := findCh_some_id hsub
    have hchid : ch.id = chId := findCh_some_id hch
    have holdid : old.id = oldId := findCh_some_id hold
    have hrem : channel_remove_subchannel st (some oldId) subId =
        (updateCh (updateCh st oldId
            (fun c => { c with subchannels := ar_remove c.subchannels subId }))
          subId (fun c => { c with parent := none }), 1) := by
      unfold channel_remove_subchannel
      rw [hsub]
      simp [hpar]
    have hstore : channel_add_subchannel st chId subId =
        (updateCh (updateCh (updateCh (updateCh st oldId
            (fun c => { c with subchannels := ar_remove c.subchannels subId }))
          subId (fun c => { c with parent := none }))
          subId (fun c => { c with parent := some chId }))
          chId (fun c => { c with subchannels := ar_insert c.subchannels subId }),
         1) := by
      unfold channel_add_subchannel
      rw [hch, hsub]
      simp only [hflag, if_neg, hpar, hrem]
      simp [hflag]
    have hrw4 : ∀ j : Nat,
        findCh (updateCh (updateCh (updateCh (updateCh st oldId
            (fun c => { c with subchannels := ar_remove c.subchannels subId }))
          subId (fun c => { c with parent := none }))
          subId (fun c => { c with parent := some chId }))
          chId (fun c => { c with subchannels := ar_insert c.subchannels subId })) j =
          ((findCh st j).map
            (fun c => if c.id == oldId then
              { c with subchannels := ar_remove c.subchannels subId } else c) |>.map
            (fun c => if c.id == subId then { c with parent := none } else c) |>.map
            (fun c => if c.id == subId then { c with parent := some chId } else c) |>.map
            (fun c => if c.id == chId then
              { c with subchannels := ar_insert c.subchannels subId } else c)) := by
      intro j
      rw [findCh_updateCh _ chId j
            (fun c => { c with subchannels := ar_insert c.subchannels subId })
            (fun c => rfl),
          findCh_updateCh _ subId j
            (fun c => { c with parent := some chId }) (fun c => rfl),
          findCh_updateCh _ subId j
            (fun c => { c with parent := none }) (fun c => rfl),
          findCh_updateCh _ oldId j
            (fun c => { c with subchannels := ar_remove c.subchannels subId })
            (fun c => rfl)]
    rw [hstore]
    refine ⟨rfl, ?_, ?_, ?_⟩
    · rw [hrw4 subId, hsub]
      simp [hsubid, hos, Ne.symm hos, hcs, Ne.symm hcs]
    · rw [hrw4 chId, hch]
      simp [hchid, hoc, Ne.symm hoc, hcs, Ne.symm hcs]
    · rw [hrw4 oldId, hold]
      simp [holdid, hoc, Ne.symm hoc, hos, Ne.symm hos]
  · intro hflag hpar hcs
    have hsubid : sub.id = subId := findCh_some_id hsub
    have hchid : ch.id = chId := findCh_some_id hch
    have hrem : channel_remove_subchannel st (some chId) subId =
        (updateCh (updateCh st chId
            (fun c => { c with subchannels := ar_remove c.subchannels subId }))
          subId (fun c => { c with parent := none }), 1) := by
      unfold channel_remove_subchannel
      rw [hsub]
      simp [hpar]
    have hstore : channel_add_subchannel st chId subId =
        (updateCh (updateCh (updateCh (updateCh st chId
            (fun c => { c with subchannels := ar_remove c.subchannels subId }))
          subId (fun c => { c with parent := none }))
          subId (fun c => { c with parent := some chId }))
          chId (fun c => { c with subchannels := ar_insert c.subchannels subId }),
         1) := by
      unfold channel_add_subchannel
      rw [hch, hsub]
      simp only [hflag, if_neg, hpar, hrem]
      simp [hflag]
    have hrw4 : ∀ j : Nat,
        findCh (updateCh (updateCh (updateCh (updateCh st chId
            (fun c => { c with subchannels := ar_remove c.subchannels subId }))
          subId (fun c => { c with parent := none }))
          subId (fun c => { c with parent := some chId }))
          chId (fun c => { c with subchannels := ar_insert c.subchannels subId })) j =
          ((findCh st j).map
            (fun c => if c.id == chId then
              { c with subchannels := ar_remove c.subchannels subId } else c) |>.map
            (fun c => if c.id == subId then { c with parent := none } else c) |>.map
            (fun c => if c.id == subId then { c with parent := some chId } else c) |>.map
            (fun c => if c.id == chId then
              { c with subchannels := ar_insert c.subchannels subId } else c)) := by
      intro j
      rw [findCh_updateCh _ chId j
            (fun c => { c with subchannels := ar_insert c.subchannels subId })
            (fun c => rfl),
          findCh_updateCh _ subId j
            (fun c => { c with parent := some chId }) (fun c => rfl),
          findCh_updateCh _ subId j
            (fun c => { c with parent := none }) (fun c => rfl),
          findCh_updateCh _ chId j
            (fun c => { c with subchannels := ar_remove c.subchannels subId })
            (fun c => rfl)]
    rw [hstore]
    refine ⟨rfl, ?_, ?_⟩
    · rw [hrw4 subId, hsub]
      simp [hsubid, hcs, Ne.symm hcs]
    · rw [hrw4 chId, hch]
      simp [hchid, hcs, Ne.symm hcs]

/-- Old parent 1 of channel 3 for the C7 witness. -/
def chMoveP : channel :=
  { id := 1, name := [80], topic := [], desc := [], flags := CHANNEL_FLAG_SUBCHANNELS,
    codec := 0, sort_order := 0, password := List.replicate 30 0, max_slots := 8,
    players := [], parent := none, parent_id := 0, subchannels := [3],
    pl_privileges := [] }

/-- New parent 2 of channel 3 for the C7 witness. -/
def chMoveA : channel :=
  { id := 2, name := [81], topic := [], desc := [], flags := CHANNEL_FLAG_SUBCHANNELS,
    codec := 0, sort_order := 0, password := List.replicate 30 0, max_slots := 8,
    players := [], parent := none, parent_id := 0, subchannels := [],
    pl_privileges := [] }

/-- Child channel 3, attached under 1, for the C7 witness. -/
def chMoveC : channel :=
  { id := 3, name := [82], topic := [], desc := [], flags := 0,
    codec := 0, sort_order := 0, password := List.replicate 30 0, max_slots := 8,
    players := [], parent := some 1, parent_id := 0, subchannels := [],
    pl_privileges := [] }

/-- Store for the C7 witness. -/
def stMove : Store := [chMoveP, chMoveA, chMoveC]

/-- Witness for C7 : re-attaching channel 3 (child of 1) under channel 2
succeeds, detaches it from 1 and attaches it under 2. -/
theorem channel_add_subchannel_spec_witness :
    (channel_add_subchannel stMove 2 3).2 = 1 ∧
    findCh (channel_add_subchannel stMove 2 3).1 3 =
      some { chMoveC with parent := some 2 } ∧
    findCh (channel_add_subchannel stMove 2 3).1 2 =
      some { chMoveA with subchannels := ar_insert chMoveA.subchannels 3 } ∧
    findCh (channel_add_subchannel stMove 2 3).1 1 =
      some { chMoveP with subchannels := ar_remove chMoveP.subchannels 3 } :=
  (channel_add_subchannel_spec stMove 2 3 chMoveA chMoveC (by decide) (by decide)).2.1
    1 chMoveP (by decide) rfl (by decide) (by decide) (by decide) (by decide)

/-! ## C8 : effective flags -/

/-- C8 : `ch_getflags` returns the channel's own stored flags when it has
no parent; when it has a (live) parent with flags of `int` range, it
returns the parent's stored flags with exactly the `SUBCHANNELS` and
`DEFAULT` bits cleared (bitwise characterisation). -/
theorem ch_getflags_spec (st : Store) (s : channel) :
    (s.parent = none → ch_getflags st s = s.flags) ∧
    (∀ pid p, s.parent = some pid → findCh st pid = some p →
      p.flags < 2 ^ 32 → ∀ i,
      (ch_getflags st s).testBit i =
        (p.flags.testBit i && !CHANNEL_FLAG_SUBCHANNELS.testBit i &&
          !CHANNEL_FLAG_DEFAULT.testBit i)) := by
  constructor
  · intro h
    unfold ch_getflags
    rw [h]
  · intro pid p hp hfind hlt i
    have hrw : ch_getflags st s =
        p.flags &&& not32 CHANNEL_FLAG_SUBCHANNELS &&& not32 CHANNEL_FLAG_DEFAULT := by
      have h1 : ch_getflags st s =
          match findCh st pid with
          | none => 0
          | some p =>
            p.flags &&& not32 CHANNEL_FLAG_SUBCHANNELS &&& not32 CHANNEL_FLAG_DEFAULT := by
        unfold ch_getflags
        rw [hp]
      rw [h1, hfind]
    rw [hrw, Nat.testBit_land, Nat.testBit_land, testBit_not32, testBit_not32]
    simp only [CHANNEL_FLAG_SUBCHANNELS, CHANNEL_FLAG_DEFAULT, testBit_eight,
      testBit_sixteen]
    rcases Nat.lt_or_ge i 32 with h32 | h32
    · simp [h32]
    · have hf : p.flags.testBit i = false :=
        Nat.testBit_eq_false_of_lt
          (lt_of_lt_of_le hlt (Nat.pow_le_pow_right (by norm_num) h32))
      simp [hf, Nat.not_lt.mpr h32]

/-- Parent channel for the C8 witness, flags with bits 0, 2, 3, 4 set. -/
def chFlagP : channel :=
  { id := 1, name := [70], topic := [], desc := [], flags := 29,
    codec := 0, sort_order := 0, password := List.replicate 30 0, max_slots := 8,
    players := [], parent := none, parent_id := 0, subchannels := [2],
    pl_privileges := [] }

/-- Subchannel for the C8 witness. -/
def chFlagS : channel :=
  { id := 2, name := [71], topic := [], desc := [], flags := 3,
    codec := 0, sort_order := 0, password := List.replicate 30 0, max_slots := 8,
    players := [], parent := some 1, parent_id := 0, subchannels := [],
    pl_privileges := [] }

/-- Store for the C8 witness. -/
def stFlag : Store := [chFlagP, chFlagS]

/-- Witness for C8 : the top channel keeps its own flags, and bit 3
(`SUBCHANNELS`) of the subchannel's effective flags is cleared even
though the parent has it set. -/
theorem ch_getflags_spec_witness :
    ch_getflags stFlag chFlagP = chFlagP.flags ∧
    (ch_getflags stFlag chFlagS).testBit 3 =
      (chFlagP.flags.testBit 3 && !CHANNEL_FLAG_SUBCHANNELS.testBit 3 &&
        !CHANNEL_FLAG_DEFAULT.testBit 3) :=
  ⟨(ch_getflags_spec stFlag chFlagP).1 rfl,
   (ch_getflags_spec stFlag chFlagS).2 1 chFlagP rfl (by decide) (by decide) 3⟩

/-! ## C9 : idempotence of the privilege resolver -/

/-- The freshly created record always matches the player it was created
for. -/
theorem privMatches_mkNewPriv (pl : player) (A : Nat) :
    privMatches pl (mkNewPriv pl A) = true := by
  by_cases hr : pl.global_flags &&& GLOBAL_FLAG_REGISTERED ≠ 0 <;>
    simp [privMatches, mkNewPriv, hr, PL_CH_PRIV_REGISTERED, PL_CH_PRIV_UNREGISTERED]

/-- C9 : when `get_player_channel_privilege` returns record `pr` with
store `st1`, a second call with no intervening mutation returns the very
same record `pr` and leaves the store at `st1`; any further number of
repeated calls also leaves the store at `st1`; and the owning top
channel's privilege set has grown by at most one entry. -/
theorem get_player_channel_privilege_idem (st : Store) (pl : player) (chId : Nat)
    (st1 : Store) (pr : player_channel_privilege)
    (h : get_player_channel_privilege st pl chId = some (st1, pr)) :
    get_player_channel_privilege st1 pl chId = some (st1, pr) ∧
    (∀ k, get_priv_iter pl chId k st1 = st1) ∧
    (∀ ch owner, findCh st chId = some ch →
      findCh st (ownerOf ch chId) = some owner →
      ∃ owner1, findCh st1 (ownerOf ch chId) = some owner1 ∧
        owner1.pl_privileges.length ≤ owner.pl_privileges.length + 1) := by
  cases hch : findCh st chId with
  | none =>
    simp only [get_player_channel_privilege, hch] at h
    exact Option.noConfusion h
  | some ch =>
    cases hon : findCh st (ownerOf ch chId) with
    | none =>
      simp only [get_player_channel_privilege, hch, hon] at h
      exact Option.noConfusion h
    | some owner =>
      cases hfind : owner.pl_privileges.find? (privMatches pl) with
      | some pr0 =>
        simp only [get_player_channel_privilege, hch, hon, hfind,
          Option.some.injEq, Prod.mk.injEq] at h
        obtain ⟨hst, hpr⟩ := h
        subst hst
        subst hpr
        have hsame : get_player_channel_privilege st pl chId = some (st, pr0) := by
          simp only [get_player_channel_privilege, hch, hon, hfind]
        refine ⟨hsame, ?_, ?_⟩
        · intro k
          induction k with
          | zero => rfl
          | succ n ih => simp [get_priv_iter, hsame, ih]
        · intro ch2 owner2 hch2 hon2
          have hch2e : ch2 = ch := by cases hch2; rfl
          subst hch2e
          rw [hon] at hon2
          have hon2e : owner2 = owner := by cases hon2; rfl
          exact ⟨owner, hon, by rw [hon2e]; exact Nat.le_succ _⟩
      | none =>
        simp only [get_player_channel_privilege, hch, hon, hfind,
          Option.some.injEq, Prod.mk.injEq] at h
        obtain ⟨hst, hpr⟩ := h
        subst hpr
        have hownid : owner.id = ownerOf ch chId := findCh_some_id hon
        obtain ⟨ch2, hfind1, hpar2⟩ : ∃ ch2, findCh st1 chId = some ch2 ∧
            ch2.parent = ch.parent := by
          rw [← hst]
          unfold add_player_channel_privilege
          rw [findCh_updateCh st (ownerOf ch chId) chId
                (fun c => { c with pl_privileges :=
                  c.pl_privileges ++ [mkNewPriv pl (ownerOf ch chId)] })
                (fun c => rfl), hch]
          refine ⟨_, rfl, ?_⟩
          by_cases hc : ch.id == ownerOf ch chId <;> simp [hc]
        have hoeq : ownerOf ch2 chId = ownerOf ch chId := by
          unfold ownerOf
          rw [hpar2]
        have howner1 : findCh st1 (ownerOf ch chId) = some
            { owner with pl_privileges :=
                owner.pl_privileges ++ [mkNewPriv pl (ownerOf ch chId)] } := by
          rw [← hst]
          unfold add_player_channel_privilege
          rw [findCh_updateCh st (ownerOf ch chId) (ownerOf ch chId)
                (fun c => { c with pl_privileges :=
                  c.pl_privileges ++ [mkNewPriv pl (ownerOf ch chId)] })
                (fun c => rfl), hon]
          simp [hownid]
        have hofind : (owner.pl_privileges ++
            [mkNewPriv pl (ownerOf ch chId)]).find? (privMatches pl) =
            some (mkNewPriv pl (ownerOf ch chId)) := by
          simp [List.find?_append, hfind, privMatches_mkNewPriv]
        have hsame : get_player_channel_privilege st1 pl chId =
            some (st1, mkNewPriv pl (ownerOf ch chId)) := by
          simp only [get_player_channel_privilege, hfind1, hoeq, howner1, hofind]
        refine ⟨hsame, ?_, ?_⟩
        · intro k
          induction k with
          | zero => rfl
          | succ n ih => simp [get_priv_iter, hsame, ih]
        · intro ch3 owner3 hch3 hon3
          have hch3e : ch3 = ch := by cases hch3; rfl
          subst hch3e
          rw [hon] at hon3
          have hon3e : owner3 = owner := by cases hon3; rfl
          exact ⟨_, howner1, by rw [hon3e]; simp⟩

/-! ## Codec helper lemmas -/

theorem ru16_wu16 (x : Nat) (r : List Nat) (hx : x < 2 ^ 16) :
    ru16 (wu16 x ++ r) = x := by
  simp [ru16, wu16, byteAt]
  omega

theorem ru32_wu32 (x : Nat) (r : List Nat) (hx : x < 2 ^ 32) :
    ru32 (wu32 x ++ r) = x := by
  simp [ru32, wu32, byteAt]
  omega

theorem toSizeT_coe (m : Nat) (hm : m < 2 ^ 64) : toSizeT (m : Int) = m := by
  unfold toSizeT
  rw [Int.emod_eq_of_lt (by positivity) (by exact_mod_cast hm)]
  simp

theorem cstr_eq_self (l : List Nat) (h : ∀ b ∈ l, b ≠ 0) : cstr l = l := by
  unfold cstr
  rw [List.takeWhile_eq_self_iff]
  intro x hx
  simpa using h x hx

theorem cstrlen_eq_length (l : List Nat) (h : ∀ b ∈ l, b ≠ 0) :
    cstrlen l = l.length := by
  unfold cstrlen
  rw [show l.takeWhile (fun b => b ≠ 0) = cstr l from rfl, cstr_eq_self l h]

/-- `strndup` on a NUL-free prefix followed by a NUL duplicates exactly
that prefix when the bound covers it. -/
theorem strndup_append_exact (l r : List Nat) (n : Nat)
    (hl : ∀ b ∈ l, b ≠ 0) (hn : l.length ≤ n) :
    strndup (l ++ 0 :: r) n = l := by
  unfold strndup
  rw [List.take_append_eq_append_take, List.take_of_length_le hn]
  have hall : ∀ b ∈ l, (fun b => decide (b ≠ 0)) b = true := by
    intro b hb
    simpa using hl b hb
  cases hd : n - l.length with
  | zero =>
    simp only [hd, List.take_zero, List.append_nil]
    rw [List.takeWhile_eq_self_iff]
    intro x hx
    simpa using hl x hx
  | succ m =>
    rw [List.take_succ_cons, List.takeWhile_append,
      List.takeWhile_eq_self_iff.mpr (fun x hx => by simpa using hl x hx)]
    simp [List.takeWhile]

/-- `strndup` on a NUL-free buffer is a plain `take`. -/
theorem strndup_of_all (l : List Nat) (n : Nat) (h : ∀ b ∈ l, b ≠ 0) :
    strndup l n = l.take n := by
  unfold strndup
  rw [List.takeWhile_eq_self_iff]
  intro x hx
  simpa using h x (List.take_subset n l hx)

/-- Dropping a NUL-terminated field advances to the following bytes. -/
theorem drop_append_cons (l r : List Nat) :
    (l ++ 0 :: r).drop (l.length + 1) = r := by
  rw [List.drop_append_eq_append_drop, List.drop_eq_nil_iff.mpr (by omega)]
  simp

theorem strndup_zero (l : List Nat) : strndup l 0 = [] := rfl

theorem toSizeT_zero : toSizeT 0 = 0 := by decide

/-! ## C5 : decoding input whose strings are not NUL-terminated -/

/-- C5 (amended) : when the string region of the input contains no NUL at
all (so no string field is NUL-terminated within the remaining length),
`channel_from_data` does not fail : it truncates the name to the
`len - 19` bound computed from the remaining length, reads empty topic
and desc, still produces a channel, and consumes the declared length.
(The only failure path in the code is allocation failure.) -/
theorem channel_from_data_truncates
    (b0 b1 b2 b3 b4 b5 b6 b7 b8 b9 b10 b11 b12 b13 b14 b15 : Nat)
    (body : List Nat) (hbody : ∀ b ∈ body, b ≠ 0)
    (hlen : 3 ≤ body.length) (hbound : body.length < 2 ^ 64) :
    (channel_from_data
        (b0 :: b1 :: b2 :: b3 :: b4 :: b5 :: b6 :: b7 :: b8 :: b9 :: b10 :: b11 ::
          b12 :: b13 :: b14 :: b15 :: body)
        (16 + (body.length : Int))).2 = 16 + body.length ∧
    (channel_from_data
        (b0 :: b1 :: b2 :: b3 :: b4 :: b5 :: b6 :: b7 :: b8 :: b9 :: b10 :: b11 ::
          b12 :: b13 :: b14 :: b15 :: body)
        (16 + (body.length : Int))).1.name = body.take (body.length - 3) ∧
    (channel_from_data
        (b0 :: b1 :: b2 :: b3 :: b4 :: b5 :: b6 :: b7 :: b8 :: b9 :: b10 :: b11 ::
          b12 :: b13 :: b14 :: b15 :: body)
        (16 + (body.length : Int))).1.topic = [] ∧
    (channel_from_data
        (b0 :: b1 :: b2 :: b3 :: b4 :: b5 :: b6 :: b7 :: b8 :: b9 :: b10 :: b11 ::
          b12 :: b13 :: b14 :: b15 :: body)
        (16 + (body.length : Int))).1.desc = [] := by
  have hdrop16 :
      (b0 :: b1 :: b2 :: b3 :: b4 :: b5 :: b6 :: b7 :: b8 :: b9 :: b10 :: b11 ::
        b12 :: b13 :: b14 :: b15 :: body).drop 16 = body := rfl
  have harg1 : 16 + (body.length : Int) - 16 - 3 =
      ((body.length - 3 : Nat) : Int) := by omega
  have hlen2 : (body.take (body.length - 3)).length = body.length - 3 := by
    rw [List.length_take]
    omega
  have harg2 : 16 + (body.length : Int) -
      ((16 + (body.length - 3) + 1 : Nat) : Int) - 2 = 0 := by omega
  have harg3 : 16 + (body.length : Int) -
      ((16 + (body.length - 3) + 1 + 0 + 1 : Nat) : Int) - 1 = 0 := by omega
  simp only [channel_from_data]
  rw [hdrop16, harg1, toSizeT_coe _ (by omega), strndup_of_all _ _ hbody, hlen2,
    harg2, toSizeT_zero]
  simp only [strndup_zero, List.length_nil]
  rw [harg3, toSizeT_zero]
  simp only [strndup_zero, List.length_nil]
  refine ⟨by omega, ?_, ?_, ?_⟩ <;>
    simp [new_channel, apply_ite]

/-- Concrete C5 counterexample input : a valid 16-byte header followed by
14 bytes of name data with no NUL anywhere in the string region. -/
def dataTrunc : List Nat :=
  [0, 0, 0, 5, 0, 8, 0, 1, 255, 255, 255, 255, 0, 0, 0, 10] ++ List.replicate 14 65

/-- C5 counterexample : on an input whose name is not NUL-terminated
within the declared length, `channel_from_data` does not fail — it
consumes all 30 declared bytes and produces a channel whose name is the
11-byte truncation of the unterminated data (no `MalformedInput`
signalling exists in the code). -/
theorem channel_from_data_accepts_unterminated :
    (channel_from_data dataTrunc 30).2 = 30 ∧
    (channel_from_data dataTrunc 30).1.name = List.replicate 11 65 ∧
    (channel_from_data dataTrunc 30).1.topic = [] ∧
    (channel_from_data dataTrunc 30).1.desc = [] := by
  decide

/-- Witness for C5 (amended) at a concrete unterminated input of 20 body
bytes. -/
theorem channel_from_data_truncates_witness :
    (channel_from_data
        (0 :: 0 :: 0 :: 0 :: 0 :: 0 :: 0 :: 0 :: 0 :: 0 :: 0 :: 0 :: 0 :: 0 :: 0 :: 0 ::
          List.replicate 20 66)
        (16 + ((List.replicate 20 66 : List Nat).length : Int))).1.name =
      (List.replicate 20 66 : List Nat).take
        ((List.replicate 20 66 : List Nat).length - 3) :=
  (channel_from_data_truncates 0 0 0 0 0 0 0 0 0 0 0 0 0 0 0 0
    (List.replicate 20 66) (by decide) (by decide) (by decide)).2.1

/-! ## C1 : round-trip of the wire codec -/

/-- Concrete channel with a nonzero id and a nonzero password byte. -/
def chRound : channel :=
  { id := 5, name := [76, 111], topic := [84], desc := [68], flags := 8, codec := 1,
    sort_order := 3, password := 65 :: List.replicate 29 0, max_slots := 10,
    players := [], parent := none, parent_id := 0, subchannels := [],
    pl_privileges := [] }

/-- C1 counterexample : decoding the encoding of `chRound` (with `len`
equal to its size) does not restore every field but `parent` — the id
comes back 0 (decode skips the 4 id bytes), and the password buffer comes
back zeroed. -/
theorem roundtrip_id_lost :
    (channel_from_data (channel_to_data chRound)
      ((channel_to_data_size chRound : Nat) : Int)).1.id = 0 ∧
    chRound.id = 5 ∧
    (channel_from_data (channel_to_data chRound)
      ((channel_to_data_size chRound : Nat) : Int)).1.password ≠ chRound.password := by
  decide

/-- C1 (amended) : decoding the encoding of a valid channel (NUL-free
strings, fields in range, live parent id below the 0xFFFFFFFF sentinel)
with `len = size` consumes exactly `size` bytes and restores `name`,
`topic`, `desc`, `flags`, `codec`, `sort_order` and `max_users`; the
parent round-trips only as the raw `parent_id` (0 when there was no
parent); the id is NOT restored — decode skips the id bytes and leaves
id 0 for the registry to assign — and the password buffer comes back
zeroed. -/
theorem channel_codec_roundtrip (ch : channel)
    (hname : ∀ b ∈ ch.name, b ≠ 0) (htopic : ∀ b ∈ ch.topic, b ≠ 0)
    (hdesc : ∀ b ∈ ch.desc, b ≠ 0)
    (hflags : ch.flags < 2 ^ 16) (hcodec : ch.codec < 2 ^ 16)
    (hsort : ch.sort_order < 2 ^ 16) (hmax : ch.max_slots < 2 ^ 16)
    (hpar : ∀ pid, ch.parent = some pid → pid < 4294967295)
    (hsz : ch.name.length + ch.topic.length + ch.desc.length < 2 ^ 32) :
    (channel_from_data (channel_to_data ch) (channel_to_data_size ch : Int)).2 =
      channel_to_data_size ch ∧
    (channel_from_data (channel_to_data ch) (channel_to_data_size ch : Int)).1.name =
      ch.name ∧
    (channel_from_data (channel_to_data ch) (channel_to_data_size ch : Int)).1.topic =
      ch.topic ∧
    (channel_from_data (channel_to_data ch) (channel_to_data_size ch : Int)).1.desc =
      ch.desc ∧
    (channel_from_data (channel_to_data ch) (channel_to_data_size ch : Int)).1.flags =
      ch.flags ∧
    (channel_from_data (channel_to_data ch) (channel_to_data_size ch : Int)).1.codec =
      ch.codec ∧
    (channel_from_data (channel_to_data ch)
      (channel_to_data_size ch : Int)).1.sort_order = ch.sort_order ∧
    (channel_from_data (channel_to_data ch)
      (channel_to_data_size ch : Int)).1.max_slots = ch.max_slots ∧
    (channel_from_data (channel_to_data ch) (channel_to_data_size ch : Int)).1.id =
      0 ∧
    (channel_from_data (channel_to_data ch) (channel_to_data_size ch : Int)).1.parent =
      none ∧
    (channel_from_data (channel_to_data ch)
      (channel_to_data_size ch : Int)).1.password = List.replicate 30 0 ∧
    (channel_from_data (channel_to_data ch)
      (channel_to_data_size ch : Int)).1.parent_id =
      (match ch.parent with | none => 0 | some pid => pid) := by
  have hcn : cstr ch.name = ch.name := cstr_eq_self _ hname
  have hct : cstr ch.topic = ch.topic := cstr_eq_self _ htopic
  have hcd : cstr ch.desc = ch.desc := cstr_eq_self _ hdesc
  have hsize : channel_to_data_size ch =
      16 + ch.name.length + ch.topic.length + ch.desc.length + 3 := by
    unfold channel_to_data_size
    rw [cstrlen_eq_length _ hname, cstrlen_eq_length _ htopic,
      cstrlen_eq_length _ hdesc]
    omega
  have henc : channel_to_data ch =
      wu32 ch.id ++ (wu16 ch.flags ++ (wu16 ch.codec ++
        (wu32 (match ch.parent with | none => 4294967295 | some pid => pid) ++
          (wu16 ch.sort_order ++ (wu16 ch.max_slots ++
            (ch.name ++ 0 :: (ch.topic ++ 0 :: (ch.desc ++ 0 :: [])))))))) := by
    unfold channel_to_data
    rw [hcn, hct, hcd]
    simp [List.append_assoc]
  have e4 : (channel_to_data ch).drop 4 =
      wu16 ch.flags ++ (wu16 ch.codec ++
        (wu32 (match ch.parent with | none => 4294967295 | some pid => pid) ++
          (wu16 ch.sort_order ++ (wu16 ch.max_slots ++
            (ch.name ++ 0 :: (ch.topic ++ 0 :: (ch.desc ++ 0 :: []))))))) := by
    rw [henc]
    exact List.drop_left' (by simp [wu32])
  have e6 : (channel_to_data ch).drop 6 =
      wu16 ch.codec ++
        (wu32 (match ch.parent with | none => 4294967295 | some pid => pid) ++
          (wu16 ch.sort_order ++ (wu16 ch.max_slots ++
            (ch.name ++ 0 :: (ch.topic ++ 0 :: (ch.desc ++ 0 :: [])))))) := by
    have h := congrArg (List.drop 2) e4
    rw [List.drop_drop, List.drop_left' (by simp [wu16] : (wu16 ch.flags).length = 2)]
      at h
    exact h
  have e8 : (channel_to_data ch).drop 8 =
      wu32 (match ch.parent with | none => 4294967295 | some pid => pid) ++
        (wu16 ch.sort_order ++ (wu16 ch.max_slots ++
          (ch.name ++ 0 :: (ch.topic ++ 0 :: (ch.desc ++ 0 :: []))))) := by
    have h := congrArg (List.drop 2) e6
    rw [List.drop_drop, List.drop_left' (by simp [wu16] : (wu16 ch.codec).length = 2)]
      at h
    exact h
  have e12 : (channel_to_data ch).drop 12 =
      wu16 ch.sort_order ++ (wu16 ch.max_slots ++
        (ch.name ++ 0 :: (ch.topic ++ 0 :: (ch.desc ++ 0 :: [])))) := by
    have h := congrArg (List.drop 4) e8
    rw [List.drop_drop, List.drop_left' (by simp [wu32])] at h
    exact h
  have e14 : (channel_to_data ch).drop 14 =
      wu16 ch.max_slots ++ (ch.name ++ 0 :: (ch.topic ++ 0 :: (ch.desc ++ 0 :: []))) := by
    have h := congrArg (List.drop 2) e12
    rw [List.drop_drop,
      List.drop_left' (by simp [wu16] : (wu16 ch.sort_order).length = 2)] at h
    exact h
  have e16 : (channel_to_data ch).drop 16 =
      ch.name ++ 0 :: (ch.topic ++ 0 :: (ch.desc ++ 0 :: [])) := by
    have h := congrArg (List.drop 2) e14
    rw [List.drop_drop,
      List.drop_left' (by simp [wu16] : (wu16 ch.max_slots).length = 2)] at h
    exact h
  have hP32 : (match ch.parent with | none => 4294967295 | some pid => pid) <
      2 ^ 32 := by
    cases hp : ch.parent with
    | none => norm_num
    | some pid =>
      have h1 := hpar pid hp
      show pid < 2 ^ 32
      omega
  have hv_flags : ru16 ((channel_to_data ch).drop 4) = ch.flags := by
    rw [e4]
    exact ru16_wu16 _ _ hflags
  have hv_codec : ru16 ((channel_to_data ch).drop 6) = ch.codec := by
    rw [e6]
    exact ru16_wu16 _ _ hcodec
  have hv_pid : ru32 ((channel_to_data ch).drop 8) =
      (match ch.parent with | none => 4294967295 | some pid => pid) := by
    rw [e8]
    exact ru32_wu32 _ _ hP32
  have hv_sort : ru16 ((channel_to_data ch).drop 12) = ch.sort_order := by
    rw [e12]
    exact ru16_wu16 _ _ hsort
  have hv_max : ru16 ((channel_to_data ch).drop 14) = ch.max_slots := by
    rw [e14]
    exact ru16_wu16 _ _ hmax
  have hv_name : strndup ((channel_to_data ch).drop 16)
      (toSizeT ((channel_to_data_size ch : Int) - 16 - 3)) = ch.name := by
    have harg : (channel_to_data_size ch : Int) - 16 - 3 =
        ((ch.name.length + ch.topic.length + ch.desc.length : Nat) : Int) := by
      rw [hsize]
      omega
    rw [e16, harg, toSizeT_coe _ (by omega),
      strndup_append_exact _ _ _ hname (by omega)]
  have edrop_p1 : (channel_to_data ch).drop (16 + ch.name.length + 1) =
      ch.topic ++ 0 :: (ch.desc ++ 0 :: []) := by
    have h := congrArg (List.drop (ch.name.length + 1)) e16
    rw [List.drop_drop, drop_append_cons] at h
    have hidx : 16 + ch.name.length + 1 = 16 + (ch.name.length + 1) := by
      omega
    rw [hidx]
    exact h
  have hv_topic : strndup ((channel_to_data ch).drop (16 + ch.name.length + 1))
      (toSizeT ((channel_to_data_size ch : Int) -
        ((16 + ch.name.length + 1 : Nat) : Int) - 2)) = ch.topic := by
    have harg : (channel_to_data_size ch : Int) -
        ((16 + ch.name.length + 1 : Nat) : Int) - 2 =
        ((ch.topic.length + ch.desc.length : Nat) : Int) := by
      rw [hsize]
      omega
    rw [edrop_p1, harg, toSizeT_coe _ (by omega),
      strndup_append_exact _ _ _ htopic (by omega)]
  have edrop_p2 : (channel_to_data ch).drop
      (16 + ch.name.length + 1 + ch.topic.length + 1) =
      ch.desc ++ 0 :: [] := by
    have h := congrArg (List.drop (ch.topic.length + 1)) edrop_p1
    rw [List.drop_drop, drop_append_cons] at h
    have hidx : 16 + ch.name.length + 1 + ch.topic.length + 1 =
        16 + ch.name.length + 1 + (ch.topic.length + 1) := by
      omega
    rw [hidx]
    exact h
  have hv_desc : strndup ((channel_to_data ch).drop
      (16 + ch.name.length + 1 + ch.topic.length + 1))
      (toSizeT ((channel_to_data_size ch : Int) -
        ((16 + ch.name.length + 1 + ch.topic.length + 1 : Nat) : Int) - 1)) =
      ch.desc := by
    have harg : (channel_to_data_size ch : Int) -
        ((16 + ch.name.length + 1 + ch.topic.length + 1 : Nat) : Int) - 1 =
        ((ch.desc.length : Nat) : Int) := by
      rw [hsize]
      omega
    rw [edrop_p2, harg, toSizeT_coe _ (by omega),
      strndup_append_exact _ _ _ hdesc (by omega)]
  simp only [channel_from_data]
  rw [hv_flags, hv_codec, hv_pid, hv_sort, hv_max, hv_name, hv_topic, hv_desc]
  cases hp : ch.parent with
  | none =>
    simp only [hp]
    refine ⟨by rw [hsize]; omega, ?_⟩
    simp [new_channel]
  | some pid =>
    have hne : pid ≠ 4294967295 := by
      have := hpar pid hp
      omega
    simp only [hp]
    refine ⟨by rw [hsize]; omega, ?_⟩
    simp [new_channel, hne]

/-- Concrete valid channel (with a parent) for the C1 witness. -/
def chWire : channel :=
  { id := 9, name := [72, 105], topic := [116], desc := [], flags := 4, codec := 2,
    sort_order := 1, password := List.replicate 30 0, max_slots := 12,
    players := [], parent := some 7, parent_id := 0, subchannels := [],
    pl_privileges := [] }

/-- Witness for C1 (amended) : the strings round-trip and the parent
comes back as the raw parent id 7. -/
theorem channel_codec_roundtrip_witness :
    (channel_from_data (channel_to_data chWire)
      (channel_to_data_size chWire : Int)).1.name = chWire.name ∧
    (channel_from_data (channel_to_data chWire)
      (channel_to_data_size chWire : Int)).1.parent_id =
      (match chWire.parent with | none => 0 | some pid => pid) := by
  have h := channel_codec_roundtrip chWire (by decide) (by decide) (by decide)
    (by decide) (by decide) (by decide) (by decide)
    (by intro pid hp; cases hp; decide) (by decide)
  exact ⟨h.2.1, h.2.2.2.2.2.2.2.2.2.2.2⟩

/-- Channel 1 with an empty privilege array, for the C9 witness. -/
def chLobby : channel :=
  { id := 1, name := [76], topic := [], desc := [], flags := 0, codec := 0,
    sort_order := 0, password := List.replicate 30 0, max_slots := 4,
    players := [], parent := none, parent_id := 0, subchannels := [],
    pl_privileges := [] }

/-- Unregistered player for the C9 witness. -/
def plGuest : player := { id := 9, reg := 0, global_flags := 0, in_chan := none }

/-- The privilege record the first resolver call creates for `plGuest`. -/
def prGuest : player_channel_privilege :=
  { reg := PL_CH_PRIV_UNREGISTERED, pl_or_reg_reg := 0, pl_or_reg_pl := 9,
    ch := 1, level := 0 }

/-- Store before the first resolver call. -/
def stPriv : Store := [chLobby]

/-- Store after the first resolver call : `prGuest` recorded on channel 1. -/
def stPriv1 : Store := [{ chLobby with pl_privileges := [prGuest] }]

/-- Witness for C9 : after the creating call, the second call returns the
same record and the same store. -/
theorem get_player_channel_privilege_idem_witness :
    get_player_channel_privilege stPriv1 plGuest 1 = some (stPriv1, prGuest) :=
  (get_player_channel_privilege_idem stPriv plGuest 1 stPriv1 prGuest (by decide)).1

end Soliloque
